import Mathlib

/- Verification of the classy-weather application core (src/App.js).
   JS strings of UTF-16 code units are modelled as List Nat where the
   units themselves matter, and as Lean String elsewhere; machine
   numbers are Int or Nat; fetch responses are explicit records; the
   cooperative async scheduler is modelled by an explicit supersession
   point on the event timeline of each request chain. -/

/-- The WMO-code to icon table of getWeatherIcon: key groups paired
with icons, in source order. -/
def iconTable : List (List Int × String) :=
  [([0], "☀️"),
   ([1], "🌤"),
   ([2], "⛅️"),
   ([3], "☁️"),
   ([45, 48], "🌫"),
   ([51, 56, 61, 66, 80], "🌦"),
   ([53, 55, 63, 65, 57, 67, 81, 82], "🌧"),
   ([71, 73, 75, 77, 85, 86], "🌨"),
   ([95], "🌩"),
   ([96, 99], "⛈")]

/-- getWeatherIcon: finds the first key group whose array includes the
code and returns its icon, or the string NOT FOUND when no group
matches. -/
def getWeatherIcon (wmoCode : Int) : String :=
  match iconTable.find? (fun p => p.1.contains wmoCode) with
  | none => "NOT FOUND"
  | some p => p.2

/-- Day passes its code prop to getWeatherIcon. When the code is the JS
value undefined (array index out of range), includes matches nothing,
so the lookup falls through to NOT FOUND. -/
def dayIcon : Option Int → String
  | none => "NOT FOUND"
  | some c => getWeatherIcon c

/-- JS toUpperCase on one UTF-16 code unit: ASCII lowercase letters map
to uppercase, any other unit is unchanged. -/
def jsToUpperCode (n : Nat) : Nat :=
  if 97 ≤ n ∧ n ≤ 122 then n - 32 else n

/-- convertToFlag: uppercases the country code, then maps every code
unit c to 127397 + c. The string is modelled as its list of UTF-16
code units. -/
def convertToFlag (countryCode : List Nat) : List Nat :=
  (countryCode.map jsToUpperCode).map (fun n => 127397 + n)

/-- The daily field of a forecast response: four parallel arrays.
Temperatures are modelled as integers; no claim depends on their
arithmetic. -/
structure Forecast where
  time : List String
  temperature_2m_max : List Int
  temperature_2m_min : List Int
  weathercode : List Int
deriving DecidableEq

/-- Props handed to one Day element by WeatherList; at-indexing past
the end of an array yields the JS value undefined, modelled as none. -/
structure DayProps where
  date : String
  max : Option Int
  min : Option Int
  code : Option Int
  isToday : Bool
deriving DecidableEq

/-- WeatherList: maps over the dates with their index and reads the
other three arrays at the same index with at, with no validation that
the four arrays have equal length. -/
def weatherList (w : Forecast) : List DayProps :=
  w.time.enum.map (fun di =>
    { date := di.2,
      max := w.temperature_2m_max[di.1]?,
      min := w.temperature_2m_min[di.1]?,
      code := w.weathercode[di.1]?,
      isToday := di.1 == 0 })

/-- One entry of the geocoding results array. -/
structure GeoResult where
  latitude : Int
  longitude : Int
  timezone : String
  name : String
  country_code : List Nat
deriving DecidableEq

/-- A geocoding response: HTTP ok flag and the parsed body, whose
results field may be absent (none), or present with any number of
entries. -/
structure GeoResponse where
  ok : Bool
  results : Option (List GeoResult)
deriving DecidableEq

/-- A forecast response: HTTP ok flag and the parsed daily field. -/
structure WeatherResponse where
  ok : Bool
  daily : Forecast
deriving DecidableEq

/-- The network environment one fetchWeatherData chain runs against. -/
structure ChainEnv where
  geo : GeoResponse
  weather : WeatherResponse
deriving DecidableEq

/-- A single state write performed by a chain: setError, setIsLoading,
setDisplayLocation, setWeather, or the private loading flag of the
LocalWeather component. -/
inductive Write where
  | wError (msg : String)
  | wLoading (b : Bool)
  | wDisplay (locName : String) (flag : List Nat)
  | wWeather (daily : Option Forecast)
  | wLocalLoading (b : Bool)
deriving DecidableEq

/-- The App component state the chains write: error text, loading
flag, display location (none models the empty initial value), weather
(none models the empty object). -/
structure LocationState where
  error : String
  isLoading : Bool
  displayLocation : Option (String × List Nat)
  weather : Option Forecast
deriving DecidableEq

/-- Effect of one write on the App state. The LocalWeather private
loading flag is not part of this state. -/
def applyWrite (s : LocationState) : Write → LocationState
  | Write.wError m => { s with error := m }
  | Write.wLoading b => { s with isLoading := b }
  | Write.wDisplay n f => { s with displayLocation := some (n, f) }
  | Write.wWeather w => { s with weather := w }
  | Write.wLocalLoading _ => s

/-- The render gate of the forecast list: weather.weathercode is
truthy (the daily object is present), no error text, not loading. -/
def rendersForecast (s : LocationState) : Bool :=
  (match s.weather with | some _ => true | none => false)
    && s.error == "" && !s.isLoading

/-- Text of the TypeError thrown when destructuring the undefined
first element of an empty results array. The exact wording is engine
dependent; only its name field, which is not AbortError, matters to
the catch clause. -/
def typeErrorMessage : String :=
  "Cannot destructure property latitude of undefined"

/-- Whether event index i of a chain timeline lies at or after the
supersession point d (none = the chain is never superseded). -/
def postAt (d : Option Nat) (i : Nat) : Bool :=
  match d with
  | none => false
  | some j => decide (j ≤ i)

/-- Writes of one fetchWeatherData chain, tagged with the index of the
timeline event performing them. Timeline: 0 synchronous prefix
(setError, setIsLoading, issue geo fetch), 1 geo fetch resolves, 2 its
continuation (ok check, start json), 3 geo json resolves, 4 its
continuation (results check, destructure, setDisplayLocation, issue
forecast fetch), 5 forecast fetch resolves, 6 its continuation (ok
check, start json), 7 forecast json resolves, 8 final continuation
(setWeather). Both abort controllers fire after exactly j events when
d = some j; a pending signal-linked await then rejects with an
AbortError that the catch clause swallows, but a continuation whose
await already resolved still runs, including any throw or state write
it contains, because the source has no generation check. The finally
clause always performs setIsLoading false. -/
def fetchWeatherWrites (env : ChainEnv) (d : Option Nat) : List (Nat × Write) :=
  (0, Write.wError "") :: (0, Write.wLoading true) ::
    (if postAt d 1 then [(1, Write.wLoading false)]
     else if env.geo.ok = false then
       [(2, Write.wError "Something went wrong with fetching geolocation"),
        (2, Write.wLoading false)]
     else if postAt d 3 then [(3, Write.wLoading false)]
     else
       match env.geo.results with
       | none =>
         [(4, Write.wError "Location not found"), (4, Write.wLoading false)]
       | some [] =>
         [(4, Write.wError typeErrorMessage), (4, Write.wLoading false)]
       | some (r :: _) =>
         (4, Write.wDisplay r.name (convertToFlag r.country_code)) ::
           (if postAt d 5 then [(5, Write.wLoading false)]
            else if env.weather.ok = false then
              [(6, Write.wError "Something went wrong with fetching weather"),
               (6, Write.wLoading false)]
            else if postAt d 7 then [(7, Write.wLoading false)]
            else
              [(8, Write.wWeather (some env.weather.daily)),
               (8, Write.wLoading false)]))

/-- Writes a chain performs at or after event index j: the writes that
happen after a supersession delivered at point j. -/
def writesFrom (ws : List (Nat × Write)) (j : Nat) : List Write :=
  (ws.filter (fun q => decide (j ≤ q.1))).map Prod.snd

/-- Final App state after the chain comes to rest, folding its writes
in execution order over the starting state. -/
def runChain (env : ChainEnv) (d : Option Nat) (s : LocationState) :
    LocationState :=
  ((fetchWeatherWrites env d).map Prod.snd).foldl applyWrite s

/-- One step the search effect performs: a localStorage write, a state
write, or starting fetchWeatherData. -/
inductive EffectStep where
  | store (key value : String)
  | stateWrite (w : Write)
  | startFetch
deriving DecidableEq

/-- Whether an effect step is a localStorage write. -/
def isStore : EffectStep → Bool
  | EffectStep.store _ _ => true
  | _ => false

/-- Version 1 of the search effect: setItem unconditionally first,
then the raw length check gates the reset or the fetch. -/
def searchEffectV1 (search : String) : List EffectStep :=
  EffectStep.store "location" search ::
    (if search.length < 2 then
       [EffectStep.stateWrite (Write.wError ""),
        EffectStep.stateWrite (Write.wWeather none)]
     else [EffectStep.startFetch])

/-- Version 2 of the search effect: the raw length check comes first
and setItem runs only after fetchWeatherData has been started. -/
def searchEffectV2 (search : String) : List EffectStep :=
  if search.length < 2 then
    [EffectStep.stateWrite (Write.wError ""),
     EffectStep.stateWrite (Write.wWeather none)]
  else [EffectStep.startFetch, EffectStep.store "location" search]

/-- Modelled from the spec wording: the length of a query after JS
trim, which strips leading and trailing whitespace. The source itself
never trims. -/
def trimmedLength (s : String) : Nat :=
  ((s.data.dropWhile Char.isWhitespace).reverse.dropWhile
    Char.isWhitespace).length

/-- The address object of a reverse geocode response; absent fields
are none. -/
structure Address where
  town : Option String
  county : Option String
deriving DecidableEq

/-- A timezone-by-coordinate response. -/
structure TimezoneResponse where
  ok : Bool
  timezoneId : String
  countryCode : List Nat
deriving DecidableEq

/-- A reverse geocode response. -/
structure ReverseGeoResponse where
  ok : Bool
  address : Address
deriving DecidableEq

/-- The network environment one getCurrentPosition chain runs
against. -/
structure LocalEnv where
  tz : TimezoneResponse
  rev : ReverseGeoResponse
  weather : WeatherResponse
deriving DecidableEq

/-- Display name in getCurrentPosition: town, else county via the JS
nullish coalescing, with both absent interpolating as the text
undefined. -/
def localDisplayName (a : Address) : String :=
  match a.town with
  | some t => t
  | none =>
    match a.county with
    | some c => c
    | none => "undefined"

/-- Writes of one getCurrentPosition chain of the LocalWeather
component, tagged with timeline indices analogous to
fetchWeatherWrites: 0 prefix (setError, the private setIsLoading),
1 timezone fetch resolves, 2 its ok check, 3 its json resolves,
5 reverse geocode fetch resolves, 6 its ok check, 7 its json resolves,
8 setLocation and issue of the forecast fetch, 9 forecast fetch
resolves, 10 its ok check, 11 its json resolves, 12 setWeather. This
chain takes no supersession parameter at all: none of its three
fetches carries an abort signal and its effect registers no cleanup,
so every write executes no matter when the user types a new search.
Its catch clause calls setError unconditionally. -/
def localWeatherWrites (env : LocalEnv) : List (Nat × Write) :=
  (0, Write.wError "") :: (0, Write.wLocalLoading true) ::
    (if env.tz.ok = false then
       [(2, Write.wError
          "Something went wrong with fetching the current timezone"),
        (2, Write.wLocalLoading false)]
     else if env.rev.ok = false then
       [(6, Write.wError
          "Something went wrong with fetching the current location data"),
        (6, Write.wLocalLoading false)]
     else
       (8, Write.wDisplay (localDisplayName env.rev.address)
             (convertToFlag env.tz.countryCode)) ::
         (if env.weather.ok = false then
            [(10, Write.wError "Something went wrong with fetching weather"),
             (10, Write.wLocalLoading false)]
          else
            [(12, Write.wWeather (some env.weather.daily)),
             (12, Write.wLocalLoading false)]))

/-- A concrete two-day forecast used by concrete instances. -/
def parisDaily : Forecast :=
  { time := ["2024-01-01", "2024-01-02"],
    temperature_2m_max := [10, 8],
    temperature_2m_min := [2, -1],
    weathercode := [0, 3] }

/-- A concrete geocoding result. -/
def parisResult : GeoResult :=
  { latitude := 48, longitude := 2, timezone := "Europe/Paris",
    name := "Paris", country_code := [70, 82] }

/-- A fully successful chain environment. -/
def envHappy : ChainEnv :=
  { geo := { ok := true, results := some [parisResult] },
    weather := { ok := true, daily := parisDaily } }

/-- An environment whose geocoding lookup has a failure status. -/
def envGeoFail : ChainEnv :=
  { geo := { ok := false, results := none },
    weather := { ok := true, daily := parisDaily } }

/-- An environment whose forecast lookup has a failure status. -/
def envWeatherFail : ChainEnv :=
  { geo := { ok := true, results := some [parisResult] },
    weather := { ok := false, daily := parisDaily } }

/-- An environment whose geocoding body has a present but empty
results array. -/
def envEmptyResults : ChainEnv :=
  { geo := { ok := true, results := some [] },
    weather := { ok := true, daily := parisDaily } }

/-- An environment whose geocoding body lacks the results field. -/
def envNoResults : ChainEnv :=
  { geo := { ok := true, results := none },
    weather := { ok := true, daily := parisDaily } }

/-- The initial App state. -/
def state0 : LocationState :=
  { error := "", isLoading := false, displayLocation := none,
    weather := none }

/-- A fully successful environment for the current-location chain. -/
def localEnvOk : LocalEnv :=
  { tz := { ok := true, timezoneId := "Europe/Paris",
            countryCode := [70, 82] },
    rev := { ok := true,
             address := { town := some "Paris", county := none } },
    weather := { ok := true, daily := parisDaily } }

/-- A forecast whose temperature and code arrays are shorter than its
dates array. -/
def raggedForecast : Forecast :=
  { time := ["2024-01-01", "2024-01-02"],
    temperature_2m_max := [10],
    temperature_2m_min := [2],
    weathercode := [0] }

/-- Helper: JS toUpperCase on a single code unit is idempotent. -/
theorem jsToUpperCode_idem (n : Nat) :
    jsToUpperCode (jsToUpperCode n) = jsToUpperCode n := by
  by_cases h : 97 ≤ n ∧ n ≤ 122
  · simp only [jsToUpperCode, if_pos h]
    rw [if_neg (by omega)]
  · simp only [jsToUpperCode, if_neg h]

/-- Claim C1 (amended): stale-result discarding rests solely on the
abort signal, the source having no generation check: a superseded
fetchWeatherData chain never writes the forecast provided the abort is
delivered before its final response resolves (timeline index at most
7); an abort delivered after that point lets the stale forecast write
through, and error or display-location writes can likewise still occur
after supersession when the abort lands between a resolution and its
continuation. -/
theorem abort_before_final_resolve_blocks_weather (env : ChainEnv) (j : Nat)
    (h : j ≤ 7) :
    ∀ i w, (i, w) ∈ fetchWeatherWrites env (some j) →
      ∀ f, w ≠ Write.wWeather f := by
  intro i w hmem f hEq
  subst hEq
  rcases env with ⟨⟨gok, gres⟩, ⟨wok, daily⟩⟩
  unfold fetchWeatherWrites at hmem
  rcases gres with _ | ⟨_ | ⟨r, rs⟩⟩ <;>
    cases gok <;> cases wok <;>
      simp only [postAt] at hmem <;>
        split_ifs at hmem <;>
          simp_all

/-- Claim C1 witness: a chain aborted while its geo json read is still
pending performs no forecast write at all. -/
theorem abort_before_final_resolve_blocks_weather_witness :
    (0, Write.wWeather (some parisDaily)) ∉
      fetchWeatherWrites envHappy (some 3) :=
  fun hmem =>
    abort_before_final_resolve_blocks_weather envHappy 3 (by decide) 0
      (Write.wWeather (some parisDaily)) hmem (some parisDaily) rfl

/-- Claim C1 counterexample: a superseded chain whose final response
resolved before the abort was observed (supersession point 8) still
writes the stale forecast after supersession, and one superseded right
after its geocoding json resolved (point 4) still writes the stale
display location, so superseded completions are not silently
discarded. -/
theorem stale_generation_writes_state :
    Write.wWeather (some parisDaily) ∈
        writesFrom (fetchWeatherWrites envHappy (some 8)) 8 ∧
      Write.wDisplay "Paris" (convertToFlag [70, 82]) ∈
        writesFrom (fetchWeatherWrites envHappy (some 4)) 4 := by
  decide

/-- Claim C2 (amended): the validation uses the raw query length, not
the trimmed length: every query whose raw length is below 2 makes both
effect versions clear the error, clear the forecast and start no
fetch. -/
theorem short_raw_query_resets_idle (search : String)
    (h : search.length < 2) :
    searchEffectV1 search =
        [EffectStep.store "location" search,
         EffectStep.stateWrite (Write.wError ""),
         EffectStep.stateWrite (Write.wWeather none)] ∧
      searchEffectV2 search =
        [EffectStep.stateWrite (Write.wError ""),
         EffectStep.stateWrite (Write.wWeather none)] := by
  unfold searchEffectV1 searchEffectV2
  rw [if_pos h, if_pos h]
  exact ⟨rfl, rfl⟩

/-- Claim C2 witness: the one-letter query resets state and starts no
fetch. -/
theorem short_raw_query_resets_idle_witness :
    searchEffectV1 "x" =
        [EffectStep.store "location" "x",
         EffectStep.stateWrite (Write.wError ""),
         EffectStep.stateWrite (Write.wWeather none)] ∧
      searchEffectV2 "x" =
        [EffectStep.stateWrite (Write.wError ""),
         EffectStep.stateWrite (Write.wWeather none)] :=
  short_raw_query_resets_idle "x" (by decide)

/-- Claim C2 counterexample: the query of two spaces has trimmed
length 0, below 2, yet both effect versions still start a network
fetch because the source checks the raw length. -/
theorem short_trimmed_query_still_fetches :
    trimmedLength "  " = 0 ∧
      EffectStep.startFetch ∈ searchEffectV1 "  " ∧
      EffectStep.startFetch ∈ searchEffectV2 "  " := by
  decide

/-- Claim C3 (amended): a chain whose abort is observed at a pending
await, meaning it is delivered at an odd timeline position while a
response or body read is outstanding, never surfaces an error after
supersession: the rejection is an AbortError that the catch clause
swallows. Only an abort landing after a response resolved can let the
already-queued continuation throw into a visible error. -/
theorem abort_at_pending_await_no_error (env : ChainEnv) (j : Nat)
    (hodd : j % 2 = 1) :
    ∀ m, Write.wError m ∉ writesFrom (fetchWeatherWrites env (some j)) j := by
  intro m hmem
  rcases env with ⟨⟨gok, gres⟩, ⟨wok, daily⟩⟩
  unfold writesFrom fetchWeatherWrites at hmem
  rcases gres with _ | ⟨_ | ⟨r, rs⟩⟩ <;>
    cases gok <;> cases wok <;>
      simp only [postAt] at hmem <;>
        split_ifs at hmem <;>
          simp_all <;> omega

/-- Claim C3 witness: a chain aborted while its failed geo fetch is
still pending surfaces no error after supersession. -/
theorem abort_at_pending_await_no_error_witness :
    Write.wError "Something went wrong with fetching geolocation" ∉
      writesFrom (fetchWeatherWrites envGeoFail (some 1)) 1 :=
  abort_at_pending_await_no_error envGeoFail 1 (by decide)
    "Something went wrong with fetching geolocation"

/-- Claim C3 counterexample: a chain cancelled by generation
replacement right after its failed geocoding response resolved
(supersession point 2, before the ok check ran) still surfaces the
transport error after supersession, because the continuation throws a
plain Error, not an AbortError. -/
theorem cancelled_chain_surfaces_error :
    Write.wError "Something went wrong with fetching geolocation" ∈
      writesFrom (fetchWeatherWrites envGeoFail (some 2)) 2 := by
  decide

/-- Claim C4 (amended): typing a new search does not cancel the
current-location chain: none of its fetches carries an abort signal
and its effect registers no cleanup, so a fully successful chain
always writes the resolved display location and the forecast, and the
forecast write happens whatever the supersession point up to its final
event. -/
theorem local_chain_completion_writes (env : LocalEnv)
    (htz : env.tz.ok = true) (hrev : env.rev.ok = true)
    (hw : env.weather.ok = true) :
    (localWeatherWrites env).map Prod.snd =
        [Write.wError "", Write.wLocalLoading true,
         Write.wDisplay (localDisplayName env.rev.address)
           (convertToFlag env.tz.countryCode),
         Write.wWeather (some env.weather.daily),
         Write.wLocalLoading false] ∧
      ∀ j ≤ 12, Write.wWeather (some env.weather.daily) ∈
        writesFrom (localWeatherWrites env) j := by
  have hlist : localWeatherWrites env =
      [(0, Write.wError ""), (0, Write.wLocalLoading true),
       (8, Write.wDisplay (localDisplayName env.rev.address)
             (convertToFlag env.tz.countryCode)),
       (12, Write.wWeather (some env.weather.daily)),
       (12, Write.wLocalLoading false)] := by
    unfold localWeatherWrites
    rw [if_neg (by simp [htz]), if_neg (by simp [hrev]), if_neg (by simp [hw])]
  refine ⟨by rw [hlist]; rfl, ?_⟩
  intro j hj
  rw [hlist]
  unfold writesFrom
  refine List.mem_map.mpr
    ⟨(12, Write.wWeather (some env.weather.daily)),
     List.mem_filter.mpr ⟨by simp, by simpa using hj⟩, rfl⟩

/-- Claim C4 witness: the successful current-location chain still
writes the forecast when the user typed at point 5 of its timeline. -/
theorem local_chain_completion_writes_witness :
    Write.wWeather (some parisDaily) ∈
      writesFrom (localWeatherWrites localEnvOk) 5 :=
  (local_chain_completion_writes localEnvOk rfl rfl rfl).2 5 (by decide)

/-- Claim C4 counterexample: after the user types immediately
following chain start (supersession point 1), the current-location
chain still writes the display location and the forecast: its eventual
completion is not discarded. -/
theorem local_chain_not_cancelled :
    writesFrom (localWeatherWrites localEnvOk) 1 =
      [Write.wDisplay "Paris" (convertToFlag [70, 82]),
       Write.wWeather (some parisDaily), Write.wLocalLoading false] := by
  decide

/-- Claim C5 (amended): a geocoding response whose results field is
absent ends the chain in the error Location not found; a present but
empty results array instead ends it with the text of the TypeError
thrown by destructuring its undefined first element. In both cases the
exception is caught inside the chain, the stored forecast is
untouched, and no forecast is rendered. -/
theorem zero_results_outcomes (env : ChainEnv) (s : LocationState)
    (hok : env.geo.ok = true) :
    (env.geo.results = none →
        (runChain env none s).error = "Location not found" ∧
          (runChain env none s).weather = s.weather ∧
          rendersForecast (runChain env none s) = false) ∧
      (env.geo.results = some [] →
        (runChain env none s).error = typeErrorMessage ∧
          (runChain env none s).weather = s.weather ∧
          rendersForecast (runChain env none s) = false) := by
  constructor <;> intro hres <;>
    simp [runChain, fetchWeatherWrites, postAt, hok, hres, applyWrite,
      rendersForecast, typeErrorMessage]

/-- Claim C5 witness: the absent-results response ends in the error
Location not found. -/
theorem zero_results_outcomes_witness :
    (runChain envNoResults none state0).error = "Location not found" :=
  ((zero_results_outcomes envNoResults state0 rfl).1 rfl).1

/-- Claim C5 counterexample: a geocoding response carrying a present
but empty results array is a zero-result response, yet the chain ends
with the destructuring TypeError text instead of Location not
found. -/
theorem empty_results_array_not_location_not_found :
    (runChain envEmptyResults none state0).error = typeErrorMessage ∧
      typeErrorMessage ≠ "Location not found" := by
  decide

/-- Claim C6 (amended): version 1 of the effect persists the query on
every invocation as its very first step, before validation; version 2
persists only when a fetch is triggered, after starting it, and never
persists a too-short query. -/
theorem persist_behaviour_by_version (search : String) :
    (searchEffectV1 search).head? =
        some (EffectStep.store "location" search) ∧
      (2 ≤ search.length →
        searchEffectV2 search =
          [EffectStep.startFetch, EffectStep.store "location" search]) ∧
      (search.length < 2 → (searchEffectV2 search).filter isStore = []) := by
  refine ⟨rfl, ?_, ?_⟩
  · intro h
    unfold searchEffectV2
    rw [if_neg (by omega)]
  · intro h
    unfold searchEffectV2
    rw [if_pos h]
    rfl

/-- Claim C6 witness: for a two-letter query version 1 stores first
and version 2 stores after starting the fetch. -/
theorem persist_behaviour_by_version_witness :
    (searchEffectV1 "Pa").head? =
        some (EffectStep.store "location" "Pa") ∧
      searchEffectV2 "Pa" =
        [EffectStep.startFetch, EffectStep.store "location" "Pa"] :=
  ⟨(persist_behaviour_by_version "Pa").1,
   (persist_behaviour_by_version "Pa").2.1 (by decide)⟩

/-- Claim C6 counterexample: version 2 of the effect performs no store
write at all for a too-short query, and when it does store, the write
comes after startFetch rather than before validation. -/
theorem v2_does_not_persist_short_query :
    (searchEffectV2 "x").filter isStore = [] ∧
      searchEffectV2 "Pa" =
        [EffectStep.startFetch, EffectStep.store "location" "Pa"] := by
  decide

/-- Claim C7 (amended): a failure status on the geocoding lookup
surfaces verbatim the error text Something went wrong with fetching
geolocation, and a failure status on the forecast lookup after a
successful geocoding surfaces Something went wrong with fetching
weather. -/
theorem transport_error_messages (env : ChainEnv) (s : LocationState) :
    (env.geo.ok = false →
        (runChain env none s).error =
          "Something went wrong with fetching geolocation") ∧
      (∀ r rs, env.geo.ok = true → env.geo.results = some (r :: rs) →
        env.weather.ok = false →
        (runChain env none s).error =
          "Something went wrong with fetching weather") := by
  constructor
  · intro hok
    simp [runChain, fetchWeatherWrites, postAt, hok, applyWrite]
  · intro r rs hok hres hwok
    simp [runChain, fetchWeatherWrites, postAt, hok, hres, hwok, applyWrite]

/-- Claim C7 witness: the two failure environments surface the two
source error texts. -/
theorem transport_error_messages_witness :
    (runChain envGeoFail none state0).error =
        "Something went wrong with fetching geolocation" ∧
      (runChain envWeatherFail none state0).error =
        "Something went wrong with fetching weather" :=
  ⟨(transport_error_messages envGeoFail state0).1 rfl,
   (transport_error_messages envWeatherFail state0).2 parisResult [] rfl rfl rfl⟩

/-- Claim C7 counterexample: the surfaced transport error texts are
Something went wrong with fetching geolocation and Something went
wrong with fetching weather, not the texts fetching geolocation failed
and fetching weather failed that the claim states. -/
theorem transport_error_texts_differ :
    (runChain envGeoFail none state0).error =
        "Something went wrong with fetching geolocation" ∧
      "Something went wrong with fetching geolocation" ≠
        "fetching geolocation failed" ∧
      (runChain envWeatherFail none state0).error =
        "Something went wrong with fetching weather" ∧
      "Something went wrong with fetching weather" ≠
        "fetching weather failed" := by
  decide

/-- Claim C8: WeatherList does not validate that the four series have
equal length: the rendered list always has one entry per date, and an
entry whose index is past the end of the temperature or code arrays
carries the undefined value none in those fields, which renders the
NOT FOUND icon downstream instead of raising an out-of-bounds
error. -/
theorem weatherList_no_length_validation (w : Forecast) (i : Nat)
    (hi : i < w.time.length)
    (hmax : w.temperature_2m_max.length ≤ i)
    (hmin : w.temperature_2m_min.length ≤ i)
    (hcode : w.weathercode.length ≤ i) :
    (weatherList w).length = w.time.length ∧
      ∃ d, (weatherList w)[i]? = some d ∧ d.max = none ∧ d.min = none ∧
        d.code = none ∧ dayIcon d.code = "NOT FOUND" := by
  constructor
  · simp [weatherList]
  · refine ⟨{ date := w.time[i], max := none, min := none, code := none,
              isToday := i == 0 }, ?_, rfl, rfl, rfl, rfl⟩
    simp only [weatherList, List.getElem?_map, List.getElem?_enum,
      List.getElem?_eq_getElem hi, Option.map_some]
    simp [List.getElem?_eq_none, hmax, hmin, hcode]

/-- Claim C8 witness: a forecast with two dates but one-element
temperature and code arrays renders two entries, the second carrying
undefined values and the NOT FOUND icon. -/
theorem weatherList_no_length_validation_witness :
    (weatherList raggedForecast).length = 2 ∧
      ∃ d, (weatherList raggedForecast)[1]? = some d ∧ d.max = none ∧
        d.min = none ∧ d.code = none ∧ dayIcon d.code = "NOT FOUND" :=
  weatherList_no_length_validation raggedForecast 1 (by decide) (by decide)
    (by decide) (by decide)

/-- Claim C9: getWeatherIcon is total over the integers: a code inside
one of the table key groups yields that group icon, any code outside
every group yields the string NOT FOUND rather than a failure, and
code 0 yields the sun icon. -/
theorem getWeatherIcon_total (c : Int) :
    (∀ p ∈ iconTable, c ∈ p.1 → getWeatherIcon c = p.2) ∧
      ((∀ p ∈ iconTable, c ∉ p.1) → getWeatherIcon c = "NOT FOUND") ∧
      getWeatherIcon 0 = "☀️" := by
  refine ⟨?_, ?_, by decide⟩
  · have key : ∀ p ∈ iconTable, ∀ x ∈ p.1, getWeatherIcon x = p.2 := by
      decide
    exact fun p hp hc => key p hp c hc
  · intro h
    unfold getWeatherIcon
    have hnone : iconTable.find? (fun p => p.1.contains c) = none := by
      rw [List.find?_eq_none]
      intro p hp
      simpa using h p hp
    rw [hnone]

/-- Claim C9 witness: code 100 is in no key group and yields NOT
FOUND. -/
theorem getWeatherIcon_total_witness :
    getWeatherIcon 100 = "NOT FOUND" :=
  (getWeatherIcon_total 100).2.1 (by decide)

/-- Claim C10: convertToFlag is invariant under letter case on
two-letter alphabetic codes, equals the map of 127397 plus each unit
of the uppercased code, and lands in the regional-indicator range. -/
theorem convertToFlag_case_invariant (s : List Nat) (_hlen : s.length = 2)
    (halpha : ∀ n ∈ s, 65 ≤ n ∧ n ≤ 90 ∨ 97 ≤ n ∧ n ≤ 122) :
    convertToFlag s = convertToFlag (s.map jsToUpperCode) ∧
      convertToFlag s = (s.map jsToUpperCode).map (fun n => 127397 + n) ∧
      ∀ m ∈ convertToFlag s, 127462 ≤ m ∧ m ≤ 127487 := by
  refine ⟨?_, rfl, ?_⟩
  · unfold convertToFlag
    have hmm : (s.map jsToUpperCode).map jsToUpperCode =
        s.map jsToUpperCode := by
      rw [List.map_map]
      exact List.map_congr_left (fun a _ => jsToUpperCode_idem a)
    rw [hmm]
  · intro m hm
    simp only [convertToFlag, List.map_map, List.mem_map,
      Function.comp] at hm
    obtain ⟨n, hn, rfl⟩ := hm
    rcases halpha n hn with h | h
    · rw [jsToUpperCode, if_neg (by omega)]
      omega
    · rw [jsToUpperCode, if_pos (by omega)]
      omega

/-- Claim C10 witness: the lowercase code de maps to the same flag as
its uppercase form DE. -/
theorem convertToFlag_case_invariant_witness :
    convertToFlag [100, 101] =
      convertToFlag ([100, 101].map jsToUpperCode) :=
  (convertToFlag_case_invariant [100, 101] (by decide) (by decide)).1
